import Mathlib

/-!
Shallow embedding of the MarketScraper repository (EconScraper.py,
EarningsScraper.py, TwitterScraper.py, RedditScraper.py, ReportGenerator.py).

Conventions of the embedding:
* Python strings are Lean `String`s; `str.strip()` / `str.lstrip(c)` are
  modelled by `pyStrip` / character-level dropWhile on `String.data`.
* Python `"\n".join(xs)` is `pyJoin "\n" xs`.
* Raw JSON payload values (which are either strings or `null`) are `PyVal`;
  `dict.get(key, default)` is `pyGet`, Python truthiness is `PyVal.truthy`,
  and the Python `or` operator on such values is `pyOr`.
* Calendar dates are `Int` day ordinals (days since 1970-01-01); `datetime`
  library formatting (`strftime`) is implemented over a civil-calendar
  conversion.  Network calls are modelled by response oracles passed as
  arguments, together with an outbound-request counter.
* Exceptions crossing a boundary are `Except`/`Outcome` values.
-/

/-! ## Python string primitives -/

/-- The whitespace characters recognised by Python `str.strip()`. -/
def isPySpace (c : Char) : Bool :=
  c == ' ' || c == '\t' || c == '\n' || c == '\r' || c == '\x0b' || c == '\x0c'

/-- Remove trailing Python whitespace from a character list. -/
def rstripChars (l : List Char) : List Char :=
  (l.reverse.dropWhile isPySpace).reverse

/-- Remove leading and trailing Python whitespace from a character list. -/
def pyStripChars (l : List Char) : List Char :=
  rstripChars (l.dropWhile isPySpace)

/-- Python `s.strip()`. -/
def pyStrip (s : String) : String :=
  ⟨pyStripChars s.data⟩

/-- Python `sep.join(xs)`. -/
def pyJoin (sep : String) : List String → String
  | [] => ""
  | [x] => x
  | x :: y :: rest => x ++ sep ++ pyJoin sep (y :: rest)

/-! ## Python JSON payload values and dict operations -/

/-- A raw JSON payload value as seen by the Python code: either `null`
(`pnone`, Python `None`) or a string. -/
inductive PyVal where
  | pnone
  | pstr (s : String)
deriving DecidableEq

/-- Python `d.get(key, default)` over an insertion-ordered dict modelled as an
association list. -/
def pyGet (p : List (String × PyVal)) (k : String) (dflt : PyVal) : PyVal :=
  match p.find? (fun kv => kv.1 == k) with
  | some kv => kv.2
  | none => dflt

/-- Python truthiness of a payload value: `None` and `""` are falsy. -/
def PyVal.truthy : PyVal → Bool
  | .pnone => false
  | .pstr s => !(s == "")

/-- Python `a or b` on payload values. -/
def pyOr (a b : PyVal) : PyVal :=
  if a.truthy then a else b

/-- Python `str.format` / f-string interpolation of a payload value:
`None` renders as the literal text "None". -/
def pyStr : PyVal → String
  | .pnone => "None"
  | .pstr s => s

/-- Python `x or ''` for an `Optional[str]` (used in f-strings): `None` and
`""` both give `""`. -/
def pyOrEmpty : Option String → String
  | none => ""
  | some s => s

/-- Python `a or b` for two `Optional[str]` values. -/
def pyOrOpt (a b : Option String) : Option String :=
  match a with
  | some s => if s == "" then b else some s
  | none => b

/-- Python `a or b` where `a : Optional[str]` and `b : str`. -/
def pyOrS (a : Option String) (b : String) : String :=
  match a with
  | some s => if s == "" then b else s
  | none => b

/-! ## Calendar / `datetime` library model

Dates are `Int` day ordinals (days since 1970-01-01).  `civilFromDays`
converts a (non-negative, shifted) day count to a civil `(year, month, day)`
triple; it implements the standard days-from-civil inverse algorithm used to
model `datetime.date` / `datetime.utcfromtimestamp`. -/

/-- Civil date from a day count since 1970-01-01 (valid for days `≥ 0`). -/
def civilFromDays (z : Nat) : Nat × Nat × Nat :=
  let n := z + 719468
  let era := n / 146097
  let doe := n % 146097
  let yoe := (doe - doe / 1460 + doe / 36524 - doe / 146096) / 365
  let y := yoe + era * 400
  let doy := doe - (365 * yoe + yoe / 4 - yoe / 100)
  let mp := (5 * doy + 2) / 153
  let d := doy - (153 * mp + 2) / 5 + 1
  let m := if mp < 10 then mp + 3 else mp - 9
  (if m ≤ 2 then y + 1 else y, m, d)

/-- Zero-pad a number to two digits (`strftime` `%d`, `%m`, `%H`, `%M`). -/
def pad2 (n : Nat) : String :=
  if n < 10 then "0" ++ toString n else toString n

/-- Zero-pad a number to four digits (`strftime` `%Y`). -/
def pad4 (n : Nat) : String :=
  if n < 10 then "000" ++ toString n
  else if n < 100 then "00" ++ toString n
  else if n < 1000 then "0" ++ toString n
  else toString n

/-- `strftime('%A')` weekday names; 1970-01-01 was a Thursday. -/
def weekdayName (z : Nat) : String :=
  match (z + 4) % 7 with
  | 0 => "Sunday"
  | 1 => "Monday"
  | 2 => "Tuesday"
  | 3 => "Wednesday"
  | 4 => "Thursday"
  | 5 => "Friday"
  | _ => "Saturday"

/-- `strftime('%B')` month names. -/
def monthName (m : Nat) : String :=
  match m with
  | 1 => "January"
  | 2 => "February"
  | 3 => "March"
  | 4 => "April"
  | 5 => "May"
  | 6 => "June"
  | 7 => "July"
  | 8 => "August"
  | 9 => "September"
  | 10 => "October"
  | 11 => "November"
  | _ => "December"

/-- `date.strftime('%Y-%m-%d')` (the `DATE_FORMAT` of both calendar scrapers). -/
def fmtISODate (d : Int) : String :=
  let c := civilFromDays d.toNat
  pad4 c.1 ++ "-" ++ pad2 c.2.1 ++ "-" ++ pad2 c.2.2

/-- `date.strftime('%A, %B %d, %Y')` (the per-day heading of the earnings renderer). -/
def fmtLongDate (d : Int) : String :=
  let c := civilFromDays d.toNat
  weekdayName d.toNat ++ ", " ++ monthName c.2.1 ++ " " ++ pad2 c.2.2 ++ ", " ++ pad4 c.1

/-- `datetime.utcfromtimestamp(t).strftime('%Y-%m-%d %H:%M UTC')` for a
non-negative epoch-second count (RedditScraper's timestamp formatting). -/
def fmtEpoch (t : Nat) : String :=
  let days := t / 86400
  let rem := t % 86400
  let c := civilFromDays days
  pad4 c.1 ++ "-" ++ pad2 c.2.1 ++ "-" ++ pad2 c.2.2 ++ " " ++
    pad2 (rem / 3600) ++ ":" ++ pad2 (rem % 3600 / 60) ++ " UTC"

/-! ## `datetime.strptime` model (the two formats accepted by
`EconomicEvent.release_time`) -/

/-- A parsed `datetime.datetime` value. -/
structure PyDateTime where
  year : Nat
  month : Nat
  day : Nat
  hour : Nat
  minute : Nat
  second : Nat
deriving DecidableEq

/-- Numeric value of a decimal digit character. -/
def digitVal (c : Char) : Option Nat :=
  if c.isDigit then some (c.toNat - 48) else none

/-- Two-digit field of a `strptime` format. -/
def nat2 (a b : Char) : Option Nat := do
  let x ← digitVal a
  let y ← digitVal b
  pure (10 * x + y)

/-- Four-digit field of a `strptime` format. -/
def nat4 (a b c d : Char) : Option Nat := do
  let x ← nat2 a b
  let y ← nat2 c d
  pure (100 * x + y)

/-- Gregorian leap-year test (used by `strptime` date validation). -/
def isLeapYear (y : Nat) : Bool :=
  (y % 4 == 0 && y % 100 != 0) || (y % 400 == 0)

/-- Number of days in a month (Gregorian). -/
def daysInMonth (y m : Nat) : Nat :=
  match m with
  | 2 => if isLeapYear y then 29 else 28
  | 4 => 30
  | 6 => 30
  | 9 => 30
  | 11 => 30
  | _ => 31

/-- Validate the parsed fields the way `datetime.strptime` does and build the
`datetime` value (raising, i.e. `none`, on out-of-range components). -/
def mkPyDateTime (y mo d h mi s : Nat) : Option PyDateTime :=
  if 1 ≤ y && y ≤ 9999 && 1 ≤ mo && mo ≤ 12 && 1 ≤ d && d ≤ daysInMonth y mo
      && h ≤ 23 && mi ≤ 59 && s ≤ 59 then
    some ⟨y, mo, d, h, mi, s⟩
  else
    none

/-- `datetime.strptime(s, "%Y-%m-%dT%H:%M:%S")` (zero-padded fields). -/
def strptimeIso (s : String) : Option PyDateTime :=
  match s.data with
  | [y1, y2, y3, y4, '-', m1, m2, '-', d1, d2, 'T', h1, h2, ':', i1, i2, ':', s1, s2] => do
    let y ← nat4 y1 y2 y3 y4
    let mo ← nat2 m1 m2
    let d ← nat2 d1 d2
    let h ← nat2 h1 h2
    let mi ← nat2 i1 i2
    let se ← nat2 s1 s2
    mkPyDateTime y mo d h mi se
  | _ => none

/-- `datetime.strptime(s, "%Y-%m-%dT%H:%M:%SZ")` (zero-padded fields). -/
def strptimeIsoZ (s : String) : Option PyDateTime :=
  match s.data with
  | [y1, y2, y3, y4, '-', m1, m2, '-', d1, d2, 'T', h1, h2, ':', i1, i2, ':', s1, s2, 'Z'] => do
    let y ← nat4 y1 y2 y3 y4
    let mo ← nat2 m1 m2
    let d ← nat2 d1 d2
    let h ← nat2 h1 h2
    let mi ← nat2 i1 i2
    let se ← nat2 s1 s2
    mkPyDateTime y mo d h mi se
  | _ => none

/-! ## EconScraper.py: record model and renderer -/

/-- `EconomicEvent`: a dictionary-like wrapper around the raw Trading
Economics JSON object (`self._payload`); `as_dict()` returns the payload. -/
structure EconomicEvent where
  payload : List (String × PyVal)
deriving DecidableEq

/-- `EconomicEvent.release_time`: best-effort timestamp accessor.  Tries the
two accepted `strptime` formats in order and returns `None` (rather than
raising) when the value is absent/falsy or no format matches.  (JSON payloads
never hold `datetime` objects, so the `isinstance(release, datetime)` branch
of the source is vacuous here.) -/
def EconomicEvent.release_time (e : EconomicEvent) : Option PyDateTime :=
  let release := pyOr (pyGet e.payload "DateUTC" .pnone) (pyGet e.payload "date" .pnone)
  if release.truthy = false then none
  else
    match release with
    | .pnone => none
    | .pstr s =>
      match strptimeIso s with
      | some dt => some dt
      | none => strptimeIsoZ s

/-- The table header of `events_to_markdown` (two physical lines, written in
the source as two adjacent string literals). -/
def econTableHeader : String :=
  "| Date | Time (UTC) | Country | Event | Actual | Forecast | Previous |\n|---|---|---|---|---|---|---|"

/-- One row of the economic-events table (the `.format(...)` call of
`events_to_markdown`).  Note the defaults: `data.get(key, "")` only defaults
on a missing key; a key present with value `null` flows through and is
rendered by `pyStr`. -/
def econRowLine (e : EconomicEvent) : String :=
  let data := e.payload
  let when_ := pyOr (pyGet data "DateUtc" .pnone)
    (pyOr (pyGet data "DateUTC" .pnone) (pyGet data "Date" .pnone))
  let time := pyOr (pyGet data "Time" .pnone) (.pstr "")
  "| " ++ pyStr (pyOr when_ (.pstr "")) ++ " | " ++ pyStr time ++ " | "
    ++ pyStr (pyGet data "Country" (.pstr "")) ++ " | "
    ++ pyStr (pyGet data "Event" (.pstr "")) ++ " | "
    ++ pyStr (pyGet data "Actual" (.pstr "")) ++ " | "
    ++ pyStr (pyGet data "Forecast" (.pstr "")) ++ " | "
    ++ pyStr (pyGet data "Previous" (.pstr "")) ++ " |"

/-- `events_to_markdown`: format economic events as a markdown table. -/
def events_to_markdown (events : List EconomicEvent) : String :=
  if events.isEmpty then "No economic events found.\n"
  else pyJoin "\n" (econTableHeader :: events.map econRowLine) ++ "\n"

/-! ## EarningsScraper.py: record model and renderer -/

/-- `EarningsEvent` dataclass. -/
structure EarningsEvent where
  symbol : String
  company : String
  date : Int
  eps_estimate : Option String
  eps_actual : Option String
  time : Option String
deriving DecidableEq

/-- One row object of the Nasdaq earnings API response (`none` = missing key;
all values that do occur are strings). -/
structure EarningsRow where
  symbolF : Option String
  companyNameF : Option String
  epsForecastF : Option String
  epsActualF : Option String
  timeF : Option String
  timeZoneF : Option String
deriving DecidableEq

/-- `EarningsEvent.from_api`. -/
def EarningsEvent.from_api (row : EarningsRow) (on_date : Int) : EarningsEvent :=
  { symbol := pyStrip (row.symbolF.getD "")
  , company := pyStrip (row.companyNameF.getD "")
  , date := on_date
  , eps_estimate := row.epsForecastF
  , eps_actual := row.epsActualF
  , time := pyOrOpt row.timeF row.timeZoneF }

/-- The per-day table header of `earnings_to_markdown` (written in the source
as two adjacent string literals containing an embedded newline). -/
def earnTableHeader : String :=
  "| Symbol | Company | Time | EPS Estimate | EPS Actual |\n|---|---|---|---|---|"

/-- One table row of `earnings_to_markdown` (absent optionals render via
Python `or ''`). -/
def earningsRowLine (e : EarningsEvent) : String :=
  "| " ++ e.symbol ++ " | " ++ e.company ++ " | " ++ pyOrEmpty e.time ++ " | "
    ++ pyOrEmpty e.eps_estimate ++ " | " ++ pyOrEmpty e.eps_actual ++ " |"

/-- The `sorted(events)` key iteration order of `earnings_to_markdown`:
dict keys sorted ascending. -/
def earningsDates (m : List (Int × List EarningsEvent)) : List Int :=
  (m.map Prod.fst).mergeSort (fun a b => decide (a ≤ b))

/-- `events[event_date]` dict lookup (keys produced by `fetch_earnings` are
unique, so the first match is the binding). -/
def lookupList (m : List (Int × List EarningsEvent)) (d : Int) : List EarningsEvent :=
  match m.find? (fun kv => kv.1 == d) with
  | some kv => kv.2
  | none => []

/-- The lines appended for one date of the earnings loop: heading, then
either the no-releases sentence (with `continue`) or the table. -/
def earningsDayLines (d : Int) (evs : List EarningsEvent) : List String :=
  if evs.isEmpty then ["### " ++ fmtLongDate d, "No scheduled earnings releases.\n"]
  else ("### " ++ fmtLongDate d) :: earnTableHeader :: evs.map earningsRowLine ++ [""]

/-- `earnings_to_markdown`: render the collected earnings information. -/
def earnings_to_markdown (m : List (Int × List EarningsEvent)) : String :=
  if m.isEmpty then "No earnings events found.\n"
  else
    pyStrip (pyJoin "\n"
      ((earningsDates m).flatMap (fun d => earningsDayLines d (lookupList m d)))) ++ "\n"

/-! ## TwitterScraper.py: record model and renderer -/

/-- `Tweet` dataclass. -/
structure Tweet where
  id : String
  author_id : String
  text : String
  created_at : Option String
  url : String
deriving DecidableEq

/-- Python `handle.lstrip('@')`. -/
def lstripAt (s : String) : String :=
  ⟨s.data.dropWhile (fun c => c == '@')⟩

/-- One bullet line of `tweets_to_markdown` (`timestamp = tweet.created_at or ""`;
the tweet text is stripped). -/
def tweetLine (t : Tweet) : String :=
  "- [" ++ pyOrEmpty t.created_at ++ "](" ++ t.url ++ ") " ++ pyStrip t.text

/-- The lines appended for one handle of the tweets loop. -/
def tweetsSourceLines (handle : String) (items : List Tweet) : List String :=
  if items.isEmpty then ["### @" ++ lstripAt handle, "No recent tweets found.\n"]
  else ("### @" ++ lstripAt handle) :: items.map tweetLine ++ [""]

/-- `tweets_to_markdown` over the insertion-ordered handle → tweets dict. -/
def tweets_to_markdown (tweets : List (String × List Tweet)) : String :=
  if tweets.isEmpty then "No tweets collected.\n"
  else
    pyStrip (pyJoin "\n"
      (tweets.flatMap (fun kv => tweetsSourceLines kv.1 kv.2))) ++ "\n"

/-! ## RedditScraper.py: record model and renderer -/

/-- `RedditPost` dataclass (`created_utc` as non-negative epoch seconds;
Python `None`/`0` are both falsy for `_parse_timestamp`). -/
structure RedditPost where
  id : String
  title : String
  author : String
  permalink : String
  created_utc : Option Nat
  url : String
deriving DecidableEq

/-- `_parse_timestamp`: falsy timestamps render as the empty string. -/
def _parse_timestamp (timestamp : Option Nat) : String :=
  match timestamp with
  | none => ""
  | some t => if t == 0 then "" else fmtEpoch t

/-- `RedditPost.created_at` property. -/
def RedditPost.created_at (p : RedditPost) : String :=
  _parse_timestamp p.created_utc

/-- One bullet line of `reddit_to_markdown`. -/
def redditLine (p : RedditPost) : String :=
  "- [" ++ p.created_at ++ "](" ++ p.url ++ ") " ++ p.title ++ " by u/" ++ p.author

/-- The lines appended for one subreddit/user key of the reddit loop. -/
def redditSourceLines (src : String) (entries : List RedditPost) : List String :=
  if entries.isEmpty then ["### " ++ src, "No new posts.\n"]
  else ("### " ++ src) :: entries.map redditLine ++ [""]

/-- `reddit_to_markdown` over the insertion-ordered source → posts dict. -/
def reddit_to_markdown (posts : List (String × List RedditPost)) : String :=
  if posts.isEmpty then "No Reddit activity found.\n"
  else
    pyStrip (pyJoin "\n"
      (posts.flatMap (fun kv => redditSourceLines kv.1 kv.2))) ++ "\n"

/-! ## ReportGenerator.py: document assembler -/

/-- The `lines` list of `build_markdown_report` before `"\n".join(...)`:
title, generation-timestamp line, blank line, then for each non-`None`
section input a `##` header followed by the rendered fragment, in the fixed
order economic, earnings, twitter, reddit. `generatedAt` is the already
formatted `strftime('%Y-%m-%d %H:%M %Z')` text. -/
def buildLines (generatedAt : String)
    (economic_events : Option (List EconomicEvent))
    (earnings_events : Option (List (Int × List EarningsEvent)))
    (twitter_posts : Option (List (String × List Tweet)))
    (reddit_posts : Option (List (String × List RedditPost))) : List String :=
  ["# Market Intelligence Report", "_Generated on " ++ generatedAt ++ "_", ""]
    ++ (match economic_events with
        | some es => ["## Economic Calendar", events_to_markdown es]
        | none => [])
    ++ (match earnings_events with
        | some m => ["## Earnings Calendar", earnings_to_markdown m]
        | none => [])
    ++ (match twitter_posts with
        | some ps => ["## Twitter Highlights", tweets_to_markdown ps]
        | none => [])
    ++ (match reddit_posts with
        | some ps => ["## Reddit Highlights", reddit_to_markdown ps]
        | none => [])

/-- `build_markdown_report`: `"\n".join(lines).strip() + "\n"`. -/
def build_markdown_report (generatedAt : String)
    (economic_events : Option (List EconomicEvent))
    (earnings_events : Option (List (Int × List EarningsEvent)))
    (twitter_posts : Option (List (String × List Tweet)))
    (reddit_posts : Option (List (String × List RedditPost))) : String :=
  pyStrip (pyJoin "\n"
    (buildLines generatedAt economic_events earnings_events twitter_posts reddit_posts)) ++ "\n"

/-! ## ReportGenerator.py: window construction and collector wrappers -/

/-- `_daterange(start, lookahead)`: `end = start + timedelta(days=max(0, lookahead))`. -/
def _daterange (start : Int) (lookahead : Int) : Int × Int :=
  (start, start + max 0 lookahead)

/-! ## EconScraper.py: credentials, query parameters and fetch
(network calls via a response oracle, counted). -/

/-- Error surface of the economic-calendar collector: `invalidWindow` models
the `ValueError` of `_build_params`, `calendarError` the
`EconomicCalendarError` raised on HTTP / JSON / schema failure. -/
inductive EconError where
  | invalidWindow
  | calendarError (msg : String)
deriving DecidableEq

/-- Response of one Trading Economics HTTP request, as the Python code
discriminates it: non-2xx status, JSON decode failure, a non-list JSON
payload, or a list of raw event objects. -/
inductive EconResp where
  | httpError (msg : String)
  | invalidJson
  | jsonNonList
  | jsonList (payload : List (List (String × PyVal)))

/-- `_resolve_credentials`: explicit argument, else environment variable,
else the `guest` default; result is `client:secret`. -/
def _resolve_credentials (client secret envClient envSecret : Option String) : String :=
  pyOrS client (envClient.getD "guest") ++ ":" ++ pyOrS secret (envSecret.getD "guest")

/-- `_build_params`: fails fast with `invalidWindow` when `end < start`,
otherwise builds the query-parameter list (optional filters appended only
when truthy, i.e. non-empty). -/
def _build_params (start end_ : Int)
    (importance countries categories : List String) :
    Except EconError (List (String × String)) :=
  if end_ < start then .error .invalidWindow
  else .ok
    ([("start", fmtISODate start), ("end", fmtISODate end_), ("format", "json")]
      ++ (if importance.isEmpty then [] else [("importance", pyJoin "," importance)])
      ++ (if countries.isEmpty then [] else [("country", pyJoin "," countries)])
      ++ (if categories.isEmpty then [] else [("category", pyJoin "," categories)]))

/-- The response handling of `fetch_economic_calendar` after the single HTTP
request: `raise_for_status` → `EconomicCalendarError`, JSON decode failure →
`EconomicCalendarError("Invalid JSON returned from API")`, a non-list payload
→ `EconomicCalendarError("Unexpected payload structure")`, else wrap every
payload object in an `EconomicEvent`. -/
def econParseResponse (resp : EconResp) : Except EconError (List EconomicEvent) :=
  match resp with
  | .httpError m => .error (.calendarError m)
  | .invalidJson => .error (.calendarError "Invalid JSON returned from API")
  | .jsonNonList => .error (.calendarError "Unexpected payload structure")
  | .jsonList payload => .ok (payload.map EconomicEvent.mk)

/-- `fetch_economic_calendar`: builds the parameters (which may fail before
any network access), then performs exactly one HTTP request via the oracle.
Returns the collector outcome together with the number of outbound network
calls issued. -/
def fetch_economic_calendar (start end_ : Int)
    (importance countries categories : List String)
    (client secret envClient envSecret : Option String)
    (oracle : List (String × String) → EconResp) :
    Except EconError (List EconomicEvent) × Nat :=
  match _build_params start end_ importance countries categories with
  | .error e => (.error e, 0)
  | .ok ps =>
    (econParseResponse
      (oracle (ps ++ [("c", _resolve_credentials client secret envClient envSecret)])), 1)

/-- `collect_economic_data(start, lookahead)` of ReportGenerator.py. -/
def collect_economic_data (start lookahead : Int)
    (importance countries categories : List String)
    (client secret envClient envSecret : Option String)
    (oracle : List (String × String) → EconResp) :
    Except EconError (List EconomicEvent) × Nat :=
  let r := _daterange start lookahead
  fetch_economic_calendar r.1 r.2 importance countries categories
    client secret envClient envSecret oracle

/-! ## EarningsScraper.py: per-day fetch loop (one network call per day,
counted). -/

/-- Error surface of the earnings collector: `invalidWindow` models the
`ValueError` of `fetch_earnings`, `calendarError` the
`EarningsCalendarError` raised by `_fetch_for_date` on a non-2xx status. -/
inductive EarnError where
  | invalidWindow
  | calendarError (msg : String)
deriving DecidableEq

/-- Response of one Nasdaq earnings HTTP request. -/
inductive EarnResp where
  | httpError (msg : String)
  | rowsResp (rows : List EarningsRow)

/-- The `while current <= end_date` loop of `fetch_earnings`: one
`_fetch_for_date` network call per day; an `EarningsCalendarError` escaping
one day aborts the loop (it is not caught inside `fetch_earnings`).  The
`Nat` argument is the remaining number of days; the result carries the
dict of collected days and the number of network calls issued. -/
def fetchDaysLoop (oracle : Int → EarnResp) :
    Int → Nat → Except EarnError (List (Int × List EarningsEvent)) × Nat
  | _, 0 => (.ok [], 0)
  | d, n + 1 =>
    match oracle d with
    | .httpError m => (.error (.calendarError m), 1)
    | .rowsResp rows =>
      match fetchDaysLoop oracle (d + 1) n with
      | (.ok rest, c) => (.ok ((d, rows.map (fun r => EarningsEvent.from_api r d)) :: rest), c + 1)
      | (.error e, c) => (.error e, c + 1)

/-- `fetch_earnings`: fails fast with `invalidWindow` when `end < start`
(zero network calls); otherwise fetches each of the `end - start + 1` days. -/
def fetch_earnings (start end_ : Int) (oracle : Int → EarnResp) :
    Except EarnError (List (Int × List EarningsEvent)) × Nat :=
  if end_ < start then (.error .invalidWindow, 0)
  else fetchDaysLoop oracle start ((end_ - start).toNat + 1)

/-- `collect_earnings_data(start, lookahead)` of ReportGenerator.py. -/
def collect_earnings_data (start lookahead : Int) (oracle : Int → EarnResp) :
    Except EarnError (List (Int × List EarningsEvent)) × Nat :=
  let r := _daterange start lookahead
  fetch_earnings r.1 r.2 oracle

/-- Decides whether an economic-collector outcome is the invalid-window error. -/
def isInvalidWindowEcon : Except EconError (List EconomicEvent) → Bool
  | .error .invalidWindow => true
  | _ => false

/-- Decides whether an earnings-collector outcome is the invalid-window error. -/
def isInvalidWindowEarn : Except EarnError (List (Int × List EarningsEvent)) → Bool
  | .error .invalidWindow => true
  | _ => false

/-! ## ReportGenerator.py: `main` pipeline model

`main` is modelled over the parsed CLI arguments and, for each source, the
outcome of its (network-dependent) collector call: either the returned value
or an exception escaping the adapter.  The `try/except` blocks of `main`
are mirrored exactly: a raised exception is caught, replaces the result with
an empty collection (`[]` / `{}`), and control continues with the next
source. -/

/-- The parsed CLI arguments of `parse_arguments` that `main` consults. -/
structure Args where
  skip_economic : Bool
  skip_earnings : Bool
  skip_twitter : Bool
  skip_reddit : Bool
  twitter : Option String
  reddit_subreddits : Option String
  reddit_users : Option String
deriving DecidableEq

/-- `parse_handles`: split a comma-separated option on commas, strip each
item, and keep the non-empty ones (`None`/empty input gives `[]`). -/
def parse_handles (value : Option String) : List String :=
  match value with
  | none => []
  | some v =>
    if v == "" then []
    else ((v.splitOn ",").map pyStrip).filter (fun s => !(s == ""))

/-- Outcome of one collector invocation as observed by `main`'s `try` block:
the returned value, or an exception escaping the adapter. -/
inductive Outcome (α : Type) where
  | ok (val : α)
  | exn (msg : String)

/-- The `economic_events` variable after `main`'s first `try/except`. -/
def runEconomic (args : Args) (o : Outcome (List EconomicEvent)) :
    Option (List EconomicEvent) :=
  if args.skip_economic then none
  else match o with
    | .ok es => some es
    | .exn _ => some []

/-- The `earnings_events` variable after `main`'s second `try/except`. -/
def runEarnings (args : Args) (o : Outcome (List (Int × List EarningsEvent))) :
    Option (List (Int × List EarningsEvent)) :=
  if args.skip_earnings then none
  else match o with
    | .ok m => some m
    | .exn _ => some []

/-- The `twitter_posts` variable after `main`'s third `try/except` (the
collector only runs when twitter is not skipped and handles were supplied). -/
def runTwitter (args : Args) (o : Outcome (List (String × List Tweet))) :
    Option (List (String × List Tweet)) :=
  if !args.skip_twitter && !(parse_handles args.twitter).isEmpty then
    match o with
    | .ok ps => some ps
    | .exn _ => some []
  else none

/-- The `reddit_posts` variable after `main`'s fourth `try/except`. -/
def runReddit (args : Args) (o : Outcome (List (String × List RedditPost))) :
    Option (List (String × List RedditPost)) :=
  if !args.skip_reddit
      && (!(parse_handles args.reddit_subreddits).isEmpty
          || !(parse_handles args.reddit_users).isEmpty) then
    match o with
    | .ok ps => some ps
    | .exn _ => some []
  else none

/-- A source is enabled when `main` would invoke its collector. -/
def enabledEconomic (args : Args) : Bool := !args.skip_economic

/-- Earnings enabled. -/
def enabledEarnings (args : Args) : Bool := !args.skip_earnings

/-- Twitter enabled (requires handles). -/
def enabledTwitter (args : Args) : Bool :=
  !args.skip_twitter && !(parse_handles args.twitter).isEmpty

/-- Reddit enabled (requires subreddits or users). -/
def enabledReddit (args : Args) : Bool :=
  !args.skip_reddit
    && (!(parse_handles args.reddit_subreddits).isEmpty
        || !(parse_handles args.reddit_users).isEmpty)

/-- The `lines` list of the report `main` builds, given the four collector
outcomes. -/
def mainBlocks (args : Args) (generatedAt : String)
    (o1 : Outcome (List EconomicEvent))
    (o2 : Outcome (List (Int × List EarningsEvent)))
    (o3 : Outcome (List (String × List Tweet)))
    (o4 : Outcome (List (String × List RedditPost))) : List String :=
  buildLines generatedAt (runEconomic args o1) (runEarnings args o2)
    (runTwitter args o3) (runReddit args o4)

/-- The report text `main` writes to the output file. -/
def mainReport (args : Args) (generatedAt : String)
    (o1 : Outcome (List EconomicEvent))
    (o2 : Outcome (List (Int × List EarningsEvent)))
    (o3 : Outcome (List (String × List Tweet)))
    (o4 : Outcome (List (String × List RedditPost))) : String :=
  build_markdown_report generatedAt (runEconomic args o1) (runEarnings args o2)
    (runTwitter args o3) (runReddit args o4)

/-- A report line is a `##`-level section header when it starts with the
three characters of a markdown level-2 header. -/
def isHeaderLine (s : String) : Bool :=
  "## ".data.isPrefixOf s.data

/-- A raw economic event whose `Actual` key is present with a `null` value
(as the Trading Economics API returns for a not-yet-released figure). -/
def badEconEvent : EconomicEvent :=
  ⟨[("Event", .pstr "CPI"), ("Actual", .pnone)]⟩

/-- A raw economic event whose `DateUTC` value parses under neither accepted
timestamp format. -/
def malformedEconEvent : EconomicEvent :=
  ⟨[("DateUTC", .pstr "not-a-timestamp")]⟩

/-! ## Helper lemmas: strings, stripping, and header detection -/

theorem stringDataInj {a b : String} (h : a.data = b.data) : a = b := by
  cases a
  cases b
  exact congrArg String.mk h

theorem rstripChars_append_space {l : List Char} {c : Char} (h : isPySpace c = true) :
    rstripChars (l ++ [c]) = rstripChars l := by
  unfold rstripChars
  rw [List.reverse_append]
  simp [List.dropWhile_cons, h]

theorem rstripChars_append_nonspace {l : List Char} {c : Char} (h : isPySpace c = false) :
    rstripChars (l ++ [c]) = l ++ [c] := by
  unfold rstripChars
  rw [List.reverse_append]
  simp [List.dropWhile_cons, h]

theorem rstripChars_cons_nonspace {c : Char} {l : List Char} (h : isPySpace c = false) :
    rstripChars (c :: l) = c :: rstripChars l := by
  unfold rstripChars
  rw [show (c :: l).reverse = l.reverse ++ [c] from by simp]
  rw [List.dropWhile_append]
  by_cases he : (l.reverse.dropWhile isPySpace).isEmpty
  · rw [List.isEmpty_iff] at he
    simp [he, List.dropWhile_cons, h]
  · rw [Bool.not_eq_true] at he
    simp [he, List.reverse_append]

theorem pyStripChars_cons_nonspace {c : Char} {l : List Char} (h : isPySpace c = false) :
    pyStripChars (c :: l) = c :: rstripChars l := by
  unfold pyStripChars
  rw [List.dropWhile_cons]
  simp [h, rstripChars_cons_nonspace h]

theorem pyStrip_data (s : String) : (pyStrip s).data = pyStripChars s.data := rfl

theorem isHeaderLine_false_head {s : String} {c : Char}
    (h : ∃ t, s.data = c :: t) (hc : ('#' == c) = false) : isHeaderLine s = false := by
  obtain ⟨t, ht⟩ := h
  unfold isHeaderLine
  rw [ht, show "## ".data = ['#', '#', ' '] from rfl]
  simp [List.isPrefixOf, hc]

theorem isHeaderLine_false_third {s : String} {c : Char}
    (h : ∃ t, s.data = '#' :: '#' :: c :: t) (hc : (' ' == c) = false) :
    isHeaderLine s = false := by
  obtain ⟨t, ht⟩ := h
  unfold isHeaderLine
  rw [ht, show "## ".data = ['#', '#', ' '] from rfl]
  simp [List.isPrefixOf, hc]

theorem pyJoin_cons_data (x : String) (rest : List String) :
    ∃ t, (pyJoin "\n" (x :: rest)).data = x.data ++ t := by
  cases rest with
  | nil => exact ⟨[], by simp [pyJoin]⟩
  | cons y r =>
    refine ⟨"\n".data ++ (pyJoin "\n" (y :: r)).data, ?_⟩
    simp [pyJoin, String.data_append, List.append_assoc]

/-- A renderer output whose joined lines start with `"### " ++ x` is not a
`##`-level header line, even after the final `.strip() + "\n"`. -/
theorem stripped_hash3_not_header (x : String) (L : List String) :
    isHeaderLine (pyStrip (pyJoin "\n" (("### " ++ x) :: L)) ++ "\n") = false := by
  obtain ⟨t, ht⟩ := pyJoin_cons_data ("### " ++ x) L
  have hx : ("### " ++ x).data = '#' :: '#' :: '#' :: (' ' :: x.data) := by
    rw [String.data_append]
    rfl
  have hdata : (pyStrip (pyJoin "\n" (("### " ++ x) :: L))).data
      = '#' :: '#' :: '#' :: rstripChars (' ' :: x.data ++ t) := by
    rw [pyStrip_data, ht, hx]
    rw [show ('#' :: '#' :: '#' :: (' ' :: x.data)) ++ t
        = '#' :: '#' :: '#' :: (' ' :: x.data ++ t) from by simp]
    rw [pyStripChars_cons_nonspace (by decide)]
    rw [rstripChars_cons_nonspace (by decide), rstripChars_cons_nonspace (by decide)]
  apply isHeaderLine_false_third (c := '#') ?_ (by decide)
  refine ⟨rstripChars (' ' :: x.data ++ t) ++ ['\n'], ?_⟩
  rw [String.data_append, hdata]
  rfl

theorem isHeaderLine_events (es : List EconomicEvent) :
    isHeaderLine (events_to_markdown es) = false := by
  unfold events_to_markdown
  cases es with
  | nil => decide
  | cons e rest =>
    rw [if_neg (by simp)]
    obtain ⟨t, ht⟩ := pyJoin_cons_data econTableHeader ((e :: rest).map econRowLine)
    obtain ⟨u, hu⟩ : ∃ u, econTableHeader.data = '|' :: u := ⟨_, rfl⟩
    apply isHeaderLine_false_head (c := '|') ?_ (by decide)
    refine ⟨u ++ t ++ ['\n'], ?_⟩
    rw [String.data_append, ht, hu]
    simp

theorem tweetsSourceLines_head (h : String) (items : List Tweet) :
    ∃ L, tweetsSourceLines h items = ("### " ++ ("@" ++ lstripAt h)) :: L := by
  unfold tweetsSourceLines
  simp only [show ("### @" : String) = "### " ++ "@" from rfl, String.append_assoc]
  by_cases hi : items.isEmpty
  · exact ⟨_, by rw [if_pos hi]⟩
  · exact ⟨_, by rw [if_neg hi]; rfl⟩


theorem isHeaderLine_tweets (ps : List (String × List Tweet)) :
    isHeaderLine (tweets_to_markdown ps) = false := by
  unfold tweets_to_markdown
  cases ps with
  | nil => decide
  | cons kv r =>
    rw [if_neg (by simp)]
    obtain ⟨L, hL⟩ := tweetsSourceLines_head kv.1 kv.2
    rw [List.flatMap_cons, hL, List.cons_append]
    exact stripped_hash3_not_header _ _

theorem redditSourceLines_head (src : String) (entries : List RedditPost) :
    ∃ L, redditSourceLines src entries = ("### " ++ src) :: L := by
  unfold redditSourceLines
  by_cases hi : entries.isEmpty
  · exact ⟨_, by rw [if_pos hi]⟩
  · exact ⟨_, by rw [if_neg hi]; rfl⟩


theorem isHeaderLine_reddit (ps : List (String × List RedditPost)) :
    isHeaderLine (reddit_to_markdown ps) = false := by
  unfold reddit_to_markdown
  cases ps with
  | nil => decide
  | cons kv r =>
    rw [if_neg (by simp)]
    obtain ⟨L, hL⟩ := redditSourceLines_head kv.1 kv.2
    rw [List.flatMap_cons, hL, List.cons_append]
    exact stripped_hash3_not_header _ _

theorem earningsDayLines_head (d : Int) (evs : List EarningsEvent) :
    ∃ L, earningsDayLines d evs = ("### " ++ fmtLongDate d) :: L := by
  unfold earningsDayLines
  by_cases hi : evs.isEmpty
  · exact ⟨_, by rw [if_pos hi]⟩
  · exact ⟨_, by rw [if_neg hi]; rfl⟩


theorem earningsDates_ne_nil (p : Int × List EarningsEvent)
    (r : List (Int × List EarningsEvent)) : earningsDates (p :: r) ≠ [] := by
  intro h
  have hperm := List.mergeSort_perm ((p :: r).map Prod.fst) (fun a b => decide (a ≤ b))
  rw [show ((p :: r).map Prod.fst).mergeSort (fun a b => decide (a ≤ b))
      = earningsDates (p :: r) from rfl, h] at hperm
  exact absurd hperm.length_eq (by simp)

theorem isHeaderLine_earnings (m : List (Int × List EarningsEvent)) :
    isHeaderLine (earnings_to_markdown m) = false := by
  unfold earnings_to_markdown
  cases m with
  | nil => decide
  | cons p r =>
    rw [if_neg (by simp)]
    obtain ⟨d, ds, hds⟩ := List.exists_cons_of_ne_nil (earningsDates_ne_nil p r)
    rw [hds, List.flatMap_cons]
    obtain ⟨L, hL⟩ := earningsDayLines_head d (lookupList (p :: r) d)
    rw [hL, List.cons_append]
    exact stripped_hash3_not_header _ _

theorem isHeaderLine_genLine (ts : String) :
    isHeaderLine ("_Generated on " ++ ts ++ "_") = false := by
  apply isHeaderLine_false_head (c := '_') ?_ (by decide)
  refine ⟨"Generated on ".data ++ ts.data ++ "_".data, ?_⟩
  rw [String.data_append, String.data_append]
  rw [show "_Generated on ".data = '_' :: "Generated on ".data from rfl]
  simp

/-- The `##`-level headers of an assembled report, in order: exactly the
headers of the sections whose input is present. -/
theorem filter_header_buildLines (ts : String)
    (e : Option (List EconomicEvent)) (a : Option (List (Int × List EarningsEvent)))
    (t : Option (List (String × List Tweet))) (r : Option (List (String × List RedditPost))) :
    (buildLines ts e a t r).filter isHeaderLine =
      (if e.isSome then ["## Economic Calendar"] else [])
        ++ (if a.isSome then ["## Earnings Calendar"] else [])
        ++ (if t.isSome then ["## Twitter Highlights"] else [])
        ++ (if r.isSome then ["## Reddit Highlights"] else []) := by
  cases e <;> cases a <;> cases t <;> cases r <;>
    simp [buildLines, List.filter_append, List.filter_cons, isHeaderLine_genLine,
      isHeaderLine_events, isHeaderLine_earnings, isHeaderLine_tweets, isHeaderLine_reddit,
      show isHeaderLine "# Market Intelligence Report" = false from by decide,
      show isHeaderLine "" = false from by decide,
      show isHeaderLine "## Economic Calendar" = true from by decide,
      show isHeaderLine "## Earnings Calendar" = true from by decide,
      show isHeaderLine "## Twitter Highlights" = true from by decide,
      show isHeaderLine "## Reddit Highlights" = true from by decide]

theorem runEconomic_isSome (args : Args) (o : Outcome (List EconomicEvent)) :
    (runEconomic args o).isSome = enabledEconomic args := by
  unfold runEconomic enabledEconomic
  cases h : args.skip_economic <;> cases o <;> simp [h]

theorem runEarnings_isSome (args : Args) (o : Outcome (List (Int × List EarningsEvent))) :
    (runEarnings args o).isSome = enabledEarnings args := by
  unfold runEarnings enabledEarnings
  cases h : args.skip_earnings <;> cases o <;> simp [h]

theorem runTwitter_isSome (args : Args) (o : Outcome (List (String × List Tweet))) :
    (runTwitter args o).isSome = enabledTwitter args := by
  unfold runTwitter enabledTwitter
  cases h : !args.skip_twitter && !(parse_handles args.twitter).isEmpty <;>
    cases o <;> simp [h]

theorem runReddit_isSome (args : Args) (o : Outcome (List (String × List RedditPost))) :
    (runReddit args o).isSome = enabledReddit args := by
  unfold runReddit enabledReddit
  cases h : !args.skip_reddit
      && (!(parse_handles args.reddit_subreddits).isEmpty
          || !(parse_handles args.reddit_users).isEmpty) <;>
    cases o <;> simp [h]

theorem strip_title_gen (mid : List Char) :
    pyStripChars ('#' :: (mid ++ ['_', '\n'])) = '#' :: (mid ++ ['_']) := by
  unfold pyStripChars
  rw [List.dropWhile_cons, if_neg (by decide)]
  rw [rstripChars_cons_nonspace (by decide)]
  rw [show mid ++ ['_', '\n'] = (mid ++ ['_']) ++ ['\n'] from by simp]
  rw [rstripChars_append_space (by decide), rstripChars_append_nonspace (by decide)]

/-- With all four section inputs absent, the assembled report is exactly the
title line and the generation-timestamp line. -/
theorem build_report_all_absent (ts : String) :
    build_markdown_report ts none none none none
      = "# Market Intelligence Report\n_Generated on " ++ ts ++ "_\n" := by
  apply stringDataInj
  rw [show build_markdown_report ts none none none none
      = pyStrip (pyJoin "\n" ["# Market Intelligence Report",
          "_Generated on " ++ ts ++ "_", ""]) ++ "\n" from rfl]
  rw [String.data_append, pyStrip_data]
  have hJ : (pyJoin "\n" ["# Market Intelligence Report",
      "_Generated on " ++ ts ++ "_", ""]).data
      = '#' :: ((" Market Intelligence Report\n_Generated on ".data ++ ts.data)
          ++ ['_', '\n']) := by
    simp only [pyJoin, String.data_append,
      show ("\n" : String).data = ['\n'] from rfl,
      show ("" : String).data = [] from rfl,
      show ("_" : String).data = ['_'] from rfl,
      show ("# Market Intelligence Report" : String).data
        = '#' :: " Market Intelligence Report".data from rfl,
      show ("_Generated on " : String).data = '_' :: "Generated on ".data from rfl,
      show (" Market Intelligence Report\n_Generated on " : String).data
        = " Market Intelligence Report".data ++ '\n' :: '_' :: "Generated on ".data
        from by decide]
    simp [List.append_assoc]
  rw [hJ, strip_title_gen]
  rw [String.data_append, String.data_append]
  simp only [show ("\n" : String).data = ['\n'] from rfl,
    show ("_\n" : String).data = ['_', '\n'] from rfl,
    show ("# Market Intelligence Report\n_Generated on " : String).data
      = '#' :: " Market Intelligence Report\n_Generated on ".data from rfl]
  simp [List.append_assoc]

theorem econParseResponse_not_invalid (resp : EconResp) :
    isInvalidWindowEcon (econParseResponse resp) = false := by
  cases resp <;> rfl

theorem fetchDaysLoop_not_invalid (oracle : Int → EarnResp) :
    ∀ (n : Nat) (d : Int), isInvalidWindowEarn (fetchDaysLoop oracle d n).1 = false := by
  intro n
  induction n with
  | zero => intro d; rfl
  | succ k ih =>
    intro d
    unfold fetchDaysLoop
    cases oracle d with
    | httpError m => rfl
    | rowsResp rows =>
      have h := ih (d + 1)
      cases hres : fetchDaysLoop oracle (d + 1) k with
      | mk res c =>
        rw [hres] at h
        cases res with
        | ok v => simp [isInvalidWindowEarn]
        | error e => simpa [isInvalidWindowEarn] using h

theorem not_contains_header_of_filter {blocks : List String} {h : String}
    (hh : isHeaderLine h = true)
    (hf : h ∉ blocks.filter isHeaderLine) : blocks.contains h = false := by
  cases hc : blocks.contains h
  · rfl
  · exact absurd (List.mem_filter.mpr ⟨List.elem_iff.mp hc, hh⟩) hf

/-! ## Claim theorems -/

/-- C1: Partial-failure isolation.  For every argument set, timestamp and
every combination of collector outcomes — in particular when any one (or
several) of the enabled collectors raises an exception — `main` still builds
the complete report, and its `##`-level section headers are exactly the
headers of the enabled sources, in the fixed order.  The right-hand side
does not depend on the outcomes at all: no collector failure removes any
other (or its own) enabled section, and no failure aborts report
construction. -/
theorem C1_partial_failure_isolation (args : Args) (ts : String)
    (o1 : Outcome (List EconomicEvent))
    (o2 : Outcome (List (Int × List EarningsEvent)))
    (o3 : Outcome (List (String × List Tweet)))
    (o4 : Outcome (List (String × List RedditPost))) :
    (mainBlocks args ts o1 o2 o3 o4).filter isHeaderLine =
      (if enabledEconomic args then ["## Economic Calendar"] else [])
        ++ (if enabledEarnings args then ["## Earnings Calendar"] else [])
        ++ (if enabledTwitter args then ["## Twitter Highlights"] else [])
        ++ (if enabledReddit args then ["## Reddit Highlights"] else []) := by
  unfold mainBlocks
  rw [filter_header_buildLines, runEconomic_isSome, runEarnings_isSome,
    runTwitter_isSome, runReddit_isSome]

/-- C4: Assembler determinism.  `build_markdown_report` is a pure function of
`generated_at` and the section inputs (the embedding demonstrates that the
source computes the text from its arguments alone — no wall-clock reads,
randomness or other hidden state), so two calls with identical arguments
yield byte-identical output. -/
theorem C4_assembler_determinism (ts : String)
    (e : Option (List EconomicEvent)) (a : Option (List (Int × List EarningsEvent)))
    (t : Option (List (String × List Tweet))) (r : Option (List (String × List RedditPost))) :
    build_markdown_report ts e a t r = build_markdown_report ts e a t r := rfl

/-- C6: Empty-but-successful rendering.  Each of the four renderers maps an
empty successful result to its fixed "no …" sentence (which contains no
table pipe character, so it is never an empty table), and the assembler
given four empty-but-successful results still emits all four section headers
each followed by the corresponding sentence — never an omitted section. -/
theorem C6_empty_successful_rendering :
    events_to_markdown [] = "No economic events found.\n"
    ∧ earnings_to_markdown [] = "No earnings events found.\n"
    ∧ tweets_to_markdown [] = "No tweets collected.\n"
    ∧ reddit_to_markdown [] = "No Reddit activity found.\n"
    ∧ (events_to_markdown []).data.contains '|' = false
    ∧ (earnings_to_markdown []).data.contains '|' = false
    ∧ (tweets_to_markdown []).data.contains '|' = false
    ∧ (reddit_to_markdown []).data.contains '|' = false
    ∧ ∀ ts : String, buildLines ts (some []) (some []) (some []) (some [])
        = ["# Market Intelligence Report", "_Generated on " ++ ts ++ "_", "",
           "## Economic Calendar", "No economic events found.\n",
           "## Earnings Calendar", "No earnings events found.\n",
           "## Twitter Highlights", "No tweets collected.\n",
           "## Reddit Highlights", "No Reddit activity found.\n"] :=
  ⟨rfl, rfl, rfl, rfl, by decide, by decide, by decide, by decide, fun ts => rfl⟩

/-- C7: Fixed section order with skipped absences.  (1) For every combination
of present/absent section inputs the assembled lines contain, as their
`##`-level headers, exactly the headers of the present sections in the fixed
order Economic Calendar, Earnings Calendar, Twitter Highlights, Reddit
Highlights — an absent input contributes no header at all.  (2) With all
four inputs absent the document is exactly the title line and the
generation-timestamp line (zero `##` sections). -/
theorem C7_fixed_section_order :
    (∀ (ts : String) (e : Option (List EconomicEvent))
        (a : Option (List (Int × List EarningsEvent)))
        (t : Option (List (String × List Tweet)))
        (r : Option (List (String × List RedditPost))),
      (buildLines ts e a t r).filter isHeaderLine =
        (if e.isSome then ["## Economic Calendar"] else [])
          ++ (if a.isSome then ["## Earnings Calendar"] else [])
          ++ (if t.isSome then ["## Twitter Highlights"] else [])
          ++ (if r.isSome then ["## Reddit Highlights"] else []))
    ∧ (∀ ts : String, build_markdown_report ts none none none none
        = "# Market Intelligence Report\n_Generated on " ++ ts ++ "_\n") :=
  ⟨filter_header_buildLines, build_report_all_absent⟩

/-- C3: Invalid window fails fast.  For every window with `end < start`, both
window-bounded collectors (the economic and the earnings collector — the two
social collectors take no window) fail with the invalid-window error
(`ValueError("end date must be after start date")`) and issue zero outbound
network calls, whatever the network would have answered. -/
theorem C3_invalid_window_fails_fast
    (start end_ : Int) (imp co ca : List String)
    (cl se ec es : Option String)
    (oracleEcon : List (String × String) → EconResp)
    (oracleEarn : Int → EarnResp)
    (h : end_ < start) :
    fetch_economic_calendar start end_ imp co ca cl se ec es oracleEcon
        = (.error .invalidWindow, 0)
    ∧ fetch_earnings start end_ oracleEarn = (.error .invalidWindow, 0) := by
  constructor
  · unfold fetch_economic_calendar _build_params
    rw [if_pos h]
  · unfold fetch_earnings
    rw [if_pos h]

theorem C3_invalid_window_fails_fast_witness :
    ((0 : Int) < 1)
    ∧ fetch_economic_calendar 1 0 [] [] [] none none none none
        (fun _ => .jsonList []) = (.error .invalidWindow, 0)
    ∧ fetch_earnings 1 0 (fun _ => .rowsResp []) = (.error .invalidWindow, 0) := by
  refine ⟨by decide, ?_, ?_⟩
  · exact (C3_invalid_window_fails_fast 1 0 [] [] [] none none none none
      (fun _ => .jsonList []) (fun _ => .rowsResp []) (by decide)).1
  · exact (C3_invalid_window_fails_fast 1 0 [] [] [] none none none none
      (fun _ => .jsonList []) (fun _ => .rowsResp []) (by decide)).2

/-- C10: Implicit lookahead clamping.  `_daterange` computes
`end = start + max(0, lookahead)`, so `start ≤ end` for every start date and
every (possibly negative) lookahead; consequently neither
`collect_economic_data` nor `collect_earnings_data` can ever produce the
collectors' invalid-window error, whatever the network answers. -/
theorem C10_lookahead_clamping (start lookahead : Int)
    (imp co ca : List String) (cl se ec es : Option String)
    (oracleEcon : List (String × String) → EconResp) (oracleEarn : Int → EarnResp) :
    (_daterange start lookahead).1 ≤ (_daterange start lookahead).2
    ∧ isInvalidWindowEcon
        (collect_economic_data start lookahead imp co ca cl se ec es oracleEcon).1 = false
    ∧ isInvalidWindowEarn (collect_earnings_data start lookahead oracleEarn).1 = false := by
  have hle : start ≤ start + max 0 lookahead := by
    have h0 : (0 : Int) ≤ max 0 lookahead := le_max_left 0 lookahead
    omega
  refine ⟨hle, ?_, ?_⟩
  · unfold collect_economic_data _daterange fetch_economic_calendar _build_params
    dsimp only
    rw [if_neg (not_lt.mpr hle)]
    exact econParseResponse_not_invalid _
  · unfold collect_earnings_data _daterange fetch_earnings
    dsimp only
    rw [if_neg (not_lt.mpr hle)]
    exact fetchDaysLoop_not_invalid _ _ _

/-- C2 counterexample: with economic and earnings enabled (twitter/reddit
skipped), the report produced when the economic collector raises an
exception is byte-identical to the report produced when the economic
collector succeeds with zero records — `main` maps a failure to the empty
collection `[]`, so a failed section and an empty-but-successful section are
rendered identically, contradicting the claimed "distinct source-unavailable
placeholder". -/
theorem C2_counterexample :
    mainReport ⟨false, false, true, true, none, none, none⟩ "2024-05-01 12:00 UTC"
        (.exn "boom") (.ok []) (.ok []) (.ok [])
      = mainReport ⟨false, false, true, true, none, none, none⟩ "2024-05-01 12:00 UTC"
        (.ok []) (.ok []) (.ok []) (.ok []) := rfl

/-- C2 (amended): the report distinguishes only two states per source, not
three.  (1)–(4): for every source, a collector failure yields exactly the
report of an empty-but-successful collection (no distinct "unavailable"
placeholder exists).  (5)–(8): a disabled (skipped) source's section is
omitted entirely — its header never occurs among the report lines — so
disabled is still rendered differently from enabled-and-failed (which shows
the header plus the "no data" sentence). -/
theorem C2_amended_two_state_rendering :
    (∀ (args : Args) (ts m : String) o2 o3 o4, mainReport args ts (.exn m) o2 o3 o4
        = mainReport args ts (.ok []) o2 o3 o4)
    ∧ (∀ (args : Args) (ts : String) o1 (m : String) o3 o4,
        mainReport args ts o1 (.exn m) o3 o4 = mainReport args ts o1 (.ok []) o3 o4)
    ∧ (∀ (args : Args) (ts : String) o1 o2 (m : String) o4,
        mainReport args ts o1 o2 (.exn m) o4 = mainReport args ts o1 o2 (.ok []) o4)
    ∧ (∀ (args : Args) (ts : String) o1 o2 o3 (m : String),
        mainReport args ts o1 o2 o3 (.exn m) = mainReport args ts o1 o2 o3 (.ok []))
    ∧ (∀ (args : Args) (ts : String) o1 o2 o3 o4,
        (mainBlocks { args with skip_economic := true } ts o1 o2 o3 o4).contains
          "## Economic Calendar" = false)
    ∧ (∀ (args : Args) (ts : String) o1 o2 o3 o4,
        (mainBlocks { args with skip_earnings := true } ts o1 o2 o3 o4).contains
          "## Earnings Calendar" = false)
    ∧ (∀ (args : Args) (ts : String) o1 o2 o3 o4,
        (mainBlocks { args with skip_twitter := true } ts o1 o2 o3 o4).contains
          "## Twitter Highlights" = false)
    ∧ (∀ (args : Args) (ts : String) o1 o2 o3 o4,
        (mainBlocks { args with skip_reddit := true } ts o1 o2 o3 o4).contains
          "## Reddit Highlights" = false) := by
  refine ⟨fun args ts m o2 o3 o4 => rfl, fun args ts o1 m o3 o4 => rfl,
    fun args ts o1 o2 m o4 => rfl, fun args ts o1 o2 o3 m => rfl, ?_, ?_, ?_, ?_⟩
  all_goals
    intro args ts o1 o2 o3 o4
    apply not_contains_header_of_filter (by decide)
    unfold mainBlocks
    rw [filter_header_buildLines, runEconomic_isSome, runEarnings_isSome,
      runTwitter_isSome, runReddit_isSome]
  · rw [show enabledEconomic { args with skip_economic := true } = false from by
      simp [enabledEconomic]]
    cases hA : enabledEarnings { args with skip_economic := true } <;>
      cases hB : enabledTwitter { args with skip_economic := true } <;>
        cases hC : enabledReddit { args with skip_economic := true } <;> decide
  · rw [show enabledEarnings { args with skip_earnings := true } = false from by
      simp [enabledEarnings]]
    cases hA : enabledEconomic { args with skip_earnings := true } <;>
      cases hB : enabledTwitter { args with skip_earnings := true } <;>
        cases hC : enabledReddit { args with skip_earnings := true } <;> decide
  · rw [show enabledTwitter { args with skip_twitter := true } = false from by
      simp [enabledTwitter]]
    cases hA : enabledEconomic { args with skip_twitter := true } <;>
      cases hB : enabledEarnings { args with skip_twitter := true } <;>
        cases hC : enabledReddit { args with skip_twitter := true } <;> decide
  · rw [show enabledReddit { args with skip_reddit := true } = false from by
      simp [enabledReddit]]
    cases hA : enabledEconomic { args with skip_reddit := true } <;>
      cases hB : enabledEarnings { args with skip_reddit := true } <;>
        cases hC : enabledTwitter { args with skip_reddit := true } <;> decide

set_option maxRecDepth 4000 in
/-- C5 counterexample: an economic event whose `Actual` key is present with a
`null` value renders the literal text "None" in the Actual cell of the
fragment (`data.get("Actual", "")` only defaults on a *missing* key, and the
`str.format` interpolation of Python `None` is "None") — contradicting the
claim that the literal "None" never appears in place of an absent value. -/
theorem C5_counterexample :
    events_to_markdown [badEconEvent]
        = "| Date | Time (UTC) | Country | Event | Actual | Forecast | Previous |\n|---|---|---|---|---|---|---|\n|  |  |  | CPI | None |  |  |\n"
    ∧ "None".data.IsInfix (events_to_markdown [badEconEvent]).data := by
  constructor
  · rfl
  · decide

/-- C5 (amended): absent-field hygiene holds per renderer as follows.  In the
earnings renderer, `null` time/epsEstimate/epsActual render as empty cells;
in the twitter renderer a `null` created_at renders as an empty bracket and
the tweet text is stripped; in the reddit renderer a `null` created_utc
renders as an empty bracket.  In the economic renderer a *missing* key
renders as an empty cell (`get` default), but a key present with a `null`
value is interpolated as the literal text "None" (and economic fields are
interpolated untrimmed). -/
theorem C5_amended_field_rendering :
    (∀ (sym comp : String) (d : Int),
      earningsRowLine ⟨sym, comp, d, none, none, none⟩
        = "| " ++ sym ++ " | " ++ comp ++ " |  |  |  |")
    ∧ (∀ (i aid text url : String),
      tweetLine ⟨i, aid, text, none, url⟩ = "- [](" ++ url ++ ") " ++ pyStrip text)
    ∧ (∀ (i title author plink url : String),
      redditLine ⟨i, title, author, plink, none, url⟩
        = "- [](" ++ url ++ ") " ++ title ++ " by u/" ++ author)
    ∧ (∀ (p : List (String × PyVal)) (k : String) (dflt : PyVal),
      p.find? (fun kv => kv.1 == k) = none → pyGet p k dflt = dflt)
    ∧ pyStr .pnone = "None" := by
  refine ⟨?_, ?_, ?_, ?_, rfl⟩
  · intro sym comp d
    apply stringDataInj
    simp [earningsRowLine, pyOrEmpty, String.data_append, List.append_assoc]
  · intro i aid text url
    apply stringDataInj
    simp [tweetLine, pyOrEmpty, String.data_append, List.append_assoc]
  · intro i title author plink url
    apply stringDataInj
    simp [redditLine, RedditPost.created_at, _parse_timestamp, String.data_append,
      List.append_assoc]
  · intro p k dflt h
    unfold pyGet
    rw [h]

theorem C5_amended_field_rendering_witness :
    (([] : List (String × PyVal)).find? (fun kv => kv.1 == "Actual") = none)
    ∧ pyGet [] "Actual" (.pstr "") = .pstr "" :=
  ⟨rfl, C5_amended_field_rendering.2.2.2.1 [] "Actual" (.pstr "") rfl⟩

/-- C8: Row ordering in fragments.  (1) Economic events render as the table
header followed by one row per event, in the delivered order (`map`, no
re-sort).  (2)+(3) The earnings renderer iterates the dates in
ascending sorted order (`sorted(events)`), and those dates are exactly the
dict keys.  (4)+(5) Within each date, rows follow the original row order
(`map` over the day's list).  (6)+(7) Reddit sources and posts render in
provider-delivery (insertion) order, and likewise (8) for tweets. -/
theorem C8_row_ordering :
    (∀ (e : EconomicEvent) (es : List EconomicEvent),
      events_to_markdown (e :: es)
        = pyJoin "\n" (econTableHeader :: (e :: es).map econRowLine) ++ "\n")
    ∧ (∀ m : List (Int × List EarningsEvent), List.Sorted (· ≤ ·) (earningsDates m))
    ∧ (∀ m : List (Int × List EarningsEvent), (earningsDates m).Perm (m.map Prod.fst))
    ∧ (∀ (p : Int × List EarningsEvent) (r : List (Int × List EarningsEvent)),
      earnings_to_markdown (p :: r)
        = pyStrip (pyJoin "\n" ((earningsDates (p :: r)).flatMap
            (fun d => earningsDayLines d (lookupList (p :: r) d)))) ++ "\n")
    ∧ (∀ (d : Int) (e : EarningsEvent) (evs : List EarningsEvent),
      earningsDayLines d (e :: evs)
        = ("### " ++ fmtLongDate d) :: earnTableHeader :: (e :: evs).map earningsRowLine ++ [""])
    ∧ (∀ (kv : String × List RedditPost) (r : List (String × List RedditPost)),
      reddit_to_markdown (kv :: r)
        = pyStrip (pyJoin "\n" ((kv :: r).flatMap
            (fun x => redditSourceLines x.1 x.2))) ++ "\n")
    ∧ (∀ (src : String) (p : RedditPost) (ps : List RedditPost),
      redditSourceLines src (p :: ps) = ("### " ++ src) :: (p :: ps).map redditLine ++ [""])
    ∧ (∀ (handle : String) (t : Tweet) (tl : List Tweet),
      tweetsSourceLines handle (t :: tl)
        = ("### @" ++ lstripAt handle) :: (t :: tl).map tweetLine ++ [""]) := by
  refine ⟨?_, ?_, ?_, ?_, ?_, ?_, ?_, ?_⟩
  · intro e es
    simp [events_to_markdown]
  · intro m
    exact List.sorted_mergeSort' _
  · intro m
    exact List.mergeSort_perm _ _
  · intro p r
    simp [earnings_to_markdown]
  · intro d e evs
    simp [earningsDayLines]
  · intro kv r
    simp [reddit_to_markdown]
  · intro src p ps
    simp [redditSourceLines]
  · intro handle t tl
    simp [tweetsSourceLines]

/-- C9: Malformed-timestamp degradation.  (1) When the raw timestamp value of
an economic event is a string that parses under neither accepted format,
`release_time` returns `None` instead of raising.  (2) Collection keeps
every record of the response regardless of its timestamp contents: the
collector returns one `EconomicEvent` per payload object.  (3)+(4) The
reddit timestamp parser maps an absent/falsy timestamp to the empty string
instead of raising. -/
theorem C9_malformed_timestamp_degradation :
    (∀ (e : EconomicEvent) (s : String),
      pyOr (pyGet e.payload "DateUTC" .pnone) (pyGet e.payload "date" .pnone) = .pstr s →
      strptimeIso s = none → strptimeIsoZ s = none →
      e.release_time = none)
    ∧ (∀ (start end_ : Int) (imp co ca : List String) (cl se ec es : Option String)
        (payload : List (List (String × PyVal))),
      ¬ end_ < start →
      (fetch_economic_calendar start end_ imp co ca cl se ec es
          (fun _ => .jsonList payload)).1 = .ok (payload.map EconomicEvent.mk))
    ∧ _parse_timestamp none = ""
    ∧ _parse_timestamp (some 0) = "" := by
  refine ⟨?_, ?_, rfl, rfl⟩
  · intro e s hrel h1 h2
    unfold EconomicEvent.release_time
    simp only [hrel]
    cases hse : s == "" <;> simp [PyVal.truthy, hse, h1, h2]
  · intro start end_ imp co ca cl se ec es payload h
    unfold fetch_economic_calendar _build_params
    rw [if_neg h]
    simp [econParseResponse]

theorem C9_malformed_timestamp_degradation_witness :
    (pyOr (pyGet malformedEconEvent.payload "DateUTC" .pnone)
        (pyGet malformedEconEvent.payload "date" .pnone) = .pstr "not-a-timestamp")
    ∧ strptimeIso "not-a-timestamp" = none
    ∧ strptimeIsoZ "not-a-timestamp" = none
    ∧ malformedEconEvent.release_time = none
    ∧ ¬ (1 : Int) < 0
    ∧ (fetch_economic_calendar 0 1 [] [] [] none none none none
          (fun _ => .jsonList [[("Event", .pstr "GDP"), ("DateUTC", .pstr "not-a-timestamp")]])).1
        = .ok ([[("Event", .pstr "GDP"), ("DateUTC", .pstr "not-a-timestamp")]].map
            EconomicEvent.mk) := by
  refine ⟨rfl, rfl, rfl, ?_, by decide, ?_⟩
  · exact C9_malformed_timestamp_degradation.1 malformedEconEvent "not-a-timestamp"
      rfl rfl rfl
  · exact C9_malformed_timestamp_degradation.2.1 0 1 [] [] [] none none none none
      [[("Event", .pstr "GDP"), ("DateUTC", .pstr "not-a-timestamp")]] (by decide)
